import Mathlib

/-!
Verification development for the Aleph One sound manager
(src/Source_Files/Sound/OpenALManager.cpp, with the player headers
MusicPlayer.h and StreamPlayer.h).

The manager owns a deque of shared audio players (`audio_players`), a
queue of free hardware sources (`sources_pool`) and the flag
`consuming_audio_enable`.  We embed the manager state as a structure and
each member function as a state-passing Lean function.  OpenAL device
calls (alGenSources, alSourcei, ...) only matter through their success
or failure, which the embedding keeps as explicit values; buffer ids
attached to a source never influence the control flow modelled here and
are omitted from `AudioSource`.

The AudioPlayer class body (AudioPlayer.cpp) is not part of this
repository snapshot; the manager only calls IsActive, AssignSource,
SetUpALSourceIdle, Play, RetrieveSource, Stop, AskRewind and
UpdateParameters on it.  Those members are modelled from the spec, each
with a doc comment saying so.
-/

namespace AlephOneSound

/-- The C++ `NONE` constant (a `short` with value -1) used as the null
sound and source identifier. -/
def NONE : Int := -1

/-- One hardware channel.  In the source an `AudioSource` is a source id
plus a fixed ring of buffer ids; the buffer ids never affect the
manager's control flow and are omitted.  A default-constructed
`AudioSource{}` in the source has `source == 0`, which the callers treat
as "no source"; the embedding uses `Option AudioSource` at those spots. -/
structure AudioSource where
  source : Nat
deriving DecidableEq

/-- Stereo panning parameters of a playback request (the members of
`SoundParameters::stereo_parameters` read by SimulateSound). -/
structure StereoParameters where
  is_panning : Bool
  gain_global : Rat
deriving DecidableEq

/-- The two `SoundParameters::flags` bits read by PlaySound
(`_sound_does_not_self_abort` and `_sound_cannot_be_restarted`). -/
structure SoundFlags where
  does_not_self_abort : Bool
  cannot_be_restarted : Bool
deriving DecidableEq

/-- The playback-request parameters read by the manager.  `is_local`
embeds the C++ field `local` (a Lean keyword).  The 3D position,
obstruction flags and behavior index are consumed only by the
distance-attenuation computation, which the spec places out of scope;
the embedding abstracts that computation as an opaque volume estimate
`att : SoundParameters → Rat` (spec section 2: "a volume/attenuation
estimate for a playback request supplied as an opaque float"). -/
structure SoundParameters where
  identifier : Int
  source_identifier : Int
  is_local : Bool
  stereo_parameters : StereoParameters
  flags : SoundFlags
deriving DecidableEq

/-- The dynamic kind of a player (SoundPlayer / MusicPlayer /
StreamPlayer / CallBackableStreamPlayer), used where the source performs
a `dynamic_pointer_cast`. -/
inductive PlayerKind where
  | sound
  | music
  | stream
  | callbackStream
deriving DecidableEq

/-- A logical playback request.  `pid` models shared_ptr identity.
`is_active` is the player flag read by `IsActive()`; `audioSource` is
the optionally assigned hardware channel; `rewind_asked` records an
`AskRewind()` call; `setup_ok` and `play_ok` are the outcomes of
`SetUpALSourceIdle()` and `Play()`.  Modelled from the spec: the
AudioPlayer class body is not in this snapshot, so buffer priming and
playback start are kept as abstract per-player outcome flags, and
`priority` carries `GetPriority()` (MusicPlayer.h fixes it at 5;
the spec derives sound priorities from the estimated volume). -/
structure AudioPlayer where
  pid : Nat
  kind : PlayerKind
  identifier : Int
  source_identifier : Int
  priority : Rat
  is_active : Bool
  audioSource : Option AudioSource
  rewind_asked : Bool
  parameters : SoundParameters
  setup_ok : Bool
  play_ok : Bool
deriving DecidableEq

/-- Modelled from the spec: `AudioPlayer::Stop()` as called by producers
(StopSound) and by the manager after reclaiming a source.  Stopping is
advisory: it marks the player inactive and does not touch its assigned
source (spec section 5: "the effect (actual source reclamation) is only
observed on the next Tick"). -/
def AudioPlayer.Stop (p : AudioPlayer) : AudioPlayer :=
  { p with is_active := false }

/-- The manager state: the player deque, the free-source queue (front of
the list = front of the queue) and the consuming flag. -/
structure OpenALManager where
  audio_players : List AudioPlayer
  sources_pool : List AudioSource
  consuming_audio_enable : Bool
deriving DecidableEq

namespace OpenALManager

/-- `OpenALManager::PickAvailableSource`: if the pool is empty return a
null source (`{}` in the source, `none` here) and leave the state
unchanged, otherwise pop the front of the pool.  No scan of active
players and no priority comparison happens here. -/
def PickAvailableSource (st : OpenALManager) : Option AudioSource × OpenALManager :=
  match st.sources_pool with
  | [] => (none, st)
  | s :: rest => (some s, { st with sources_pool := rest })

/-- Modelled from the spec: `AudioPlayer::AssignSource` (class body not
in this snapshot).  A player that already owns a source keeps it;
otherwise the manager's PickAvailableSource is consulted and the call
succeeds exactly when it yields a source (spec section 4.2:
"SourcePool.Acquire succeeds"). -/
def AssignSource (p : AudioPlayer) (st : OpenALManager) :
    Bool × AudioPlayer × OpenALManager :=
  match p.audioSource with
  | some _ => (true, p, st)
  | none =>
    match PickAvailableSource st with
    | (some s, st1) => (true, { p with audioSource := some s }, st1)
    | (none, st1) => (false, p, st1)

/-- `OpenALManager::RetrieveSource(player)`: ask the player for its
source (modelled from the spec: `AudioPlayer::RetrieveSource` detaches
and returns the assigned source), push it back onto the pool when it is
non-null, then stop the player. -/
def RetrieveSource (p : AudioPlayer) (st : OpenALManager) :
    AudioPlayer × OpenALManager :=
  match p.audioSource with
  | some s =>
    (AudioPlayer.Stop { p with audioSource := none },
     { st with sources_pool := st.sources_pool ++ [s] })
  | none => (AudioPlayer.Stop p, st)

/-- The `mustStillPlay` chain of `OpenALManager::ConsumeAudioQueue`:
`audio->IsActive() && audio->AssignSource() && audio->SetUpALSourceIdle()
&& audio->Play()`, with C++ short-circuit evaluation (an inactive player
never reaches AssignSource, a player whose acquisition fails never
reaches SetUpALSourceIdle). -/
def consumeChain (p : AudioPlayer) (st : OpenALManager) :
    Bool × AudioPlayer × OpenALManager :=
  if p.is_active then
    let a := AssignSource p st
    if a.1 then (a.2.1.setup_ok && a.2.1.play_ok, a.2.1, a.2.2)
    else (false, a.2.1, a.2.2)
  else (false, p, st)

/-- `OpenALManager::ConsumeAudioQueue`: take the front player, evaluate
the `mustStillPlay` chain, pop it, and either requeue it at the tail
(still playing) or reclaim its source via RetrieveSource and drop it. -/
def ConsumeAudioQueue (st : OpenALManager) : OpenALManager :=
  match st.audio_players with
  | [] => st
  | audio :: rest =>
    let c := consumeChain audio st
    if c.1 then { c.2.2 with audio_players := rest ++ [c.2.1] }
    else
      let r := RetrieveSource c.2.1 c.2.2
      { r.2 with audio_players := rest }

/-- One sleep-delimited round of the `OpenALManager::ProcessAudioQueue`
loop: repeatedly call ConsumeAudioQueue and increment `iteration`,
stopping when `iteration > audio_players.size()` (the point where the
loop sleeps and resets the counter).  The list records the player at the
front of the queue each time ConsumeAudioQueue services one.  The fuel
argument only bounds the recursion; `ProcessAudioQueuePass` supplies
`size + 1` fuel, which covers the pass because the queue never grows
during consumption. -/
def processLoop : Nat → OpenALManager → Nat → OpenALManager × List AudioPlayer
  | 0, st, _ => (st, [])
  | fuel + 1, st, iteration =>
    let serviced := st.audio_players.take 1
    let st1 := ConsumeAudioQueue st
    let it1 := iteration + 1
    if it1 > st1.audio_players.length then (st1, serviced)
    else
      let r := processLoop fuel st1 it1
      (r.1, serviced ++ r.2)

/-- One full pass of ProcessAudioQueue, from one sleep to the next:
iteration starts at 0 and the pass ends the first time
`iteration > audio_players.size()` holds after a consume. -/
def ProcessAudioQueuePass (st : OpenALManager) : OpenALManager × List AudioPlayer :=
  processLoop (st.audio_players.length + 1) st 0

/-- The first `k` players serviced by consecutive ConsumeAudioQueue
calls: each step records the front of the queue (nothing when the queue
is empty) and then consumes it. -/
def servicedTrace : Nat → OpenALManager → List AudioPlayer
  | 0, _ => []
  | k + 1, st => st.audio_players.take 1 ++ servicedTrace k (ConsumeAudioQueue st)

/-- `OpenALManager::QueueAudio`: append a player at the tail of the
deque. -/
def QueueAudio (p : AudioPlayer) (st : OpenALManager) : OpenALManager :=
  { st with audio_players := st.audio_players ++ [p] }

/-- The predicate of the `std::find_if` lambda in
`OpenALManager::GetSoundPlayer`: `identifier != NONE &&
player->GetIdentifier() == identifier && (sound_identifier_only ||
player->GetSourceIdentifier() == source_identifier)`. -/
def soundMatch (identifier source_identifier : Int) (sound_identifier_only : Bool)
    (pl : AudioPlayer) : Bool :=
  decide (identifier ≠ NONE) && decide (pl.identifier = identifier) &&
    (sound_identifier_only || decide (pl.source_identifier = source_identifier))

/-- `OpenALManager::GetSoundPlayer`: find the first queued player
matching the lambda, then `dynamic_pointer_cast<SoundPlayer>` it (null
when the found player is not a sound player). -/
def GetSoundPlayer (st : OpenALManager) (identifier source_identifier : Int)
    (sound_identifier_only : Bool) : Option AudioPlayer :=
  match st.audio_players.find? (soundMatch identifier source_identifier sound_identifier_only) with
  | some pl => if pl.kind = PlayerKind.sound then some pl else none
  | none => none

/-- The volume that `OpenALManager::SimulateSound` compares against 0:
1 for a local non-panning sound (the source returns true outright),
`gain_global` for a panning sound, and the opaque distance-attenuation
estimate `att` otherwise (the 3D branch of the source; spec section 2
makes the attenuation math an external collaborator). -/
def simulatedVolume (att : SoundParameters → Rat) (p : SoundParameters) : Rat :=
  if p.is_local && !p.stereo_parameters.is_panning then 1
  else if p.stereo_parameters.is_panning then p.stereo_parameters.gain_global
  else att p

/-- `OpenALManager::SimulateSound`: play the sound exactly when its
simulated volume is positive. -/
def SimulateSound (att : SoundParameters → Rat) (p : SoundParameters) : Bool :=
  decide (0 < simulatedVolume att p)

/-- `SoundPlayer::AskRewind()` followed by `UpdateParameters(parameters)`,
as performed in place on a deduplicated player by PlaySound.  Modelled
from the spec: AskRewind "resets decode position without changing state
or losing the assigned source", UpdateParameters overwrites the mutable
request parameters. -/
def AskRewindUpdate (parameters : SoundParameters) (p : AudioPlayer) : AudioPlayer :=
  { p with rewind_asked := true, parameters := parameters }

/-- Replace the first element satisfying the predicate, mirroring a
mutation through the shared pointer that `std::find_if` returned. -/
def replaceFirst (q : AudioPlayer → Bool) (f : AudioPlayer → AudioPlayer) :
    List AudioPlayer → List AudioPlayer
  | [] => []
  | x :: xs => if q x then f x :: xs else x :: replaceFirst q f xs

/-- Construction of a SoundPlayer by PlaySound.  Modelled from the spec
for the fields the class body would set: a new player starts Queued
(no source), active, with priority derived from the estimated volume;
`setup_ok` and `play_ok` stand for the opaque sound data and device
conditions that decide buffer priming and playback start. -/
def SoundPlayer.make (att : SoundParameters → Rat) (pid : Nat)
    (setup_ok play_ok : Bool) (parameters : SoundParameters) : AudioPlayer :=
  { pid := pid, kind := PlayerKind.sound, identifier := parameters.identifier,
    source_identifier := parameters.source_identifier,
    priority := simulatedVolume att parameters, is_active := true,
    audioSource := none, rewind_asked := false, parameters := parameters,
    setup_ok := setup_ok, play_ok := play_ok }

/-- Placeholder parameters held by non-sound players (never read by the
manager for them). -/
def defaultParameters : SoundParameters :=
  { identifier := NONE, source_identifier := NONE, is_local := false,
    stereo_parameters := { is_panning := false, gain_global := 0 },
    flags := { does_not_self_abort := false, cannot_be_restarted := false } }

/-- Construction of a MusicPlayer by PlayMusic.  Its priority is the
constant 5 from MusicPlayer.h; its identifier is NONE (modelled from the
spec: identifiers belong to sounds, so music never matches the dedup
lambda). -/
def MusicPlayer.make (pid : Nat) (setup_ok play_ok : Bool) : AudioPlayer :=
  { pid := pid, kind := PlayerKind.music, identifier := NONE,
    source_identifier := NONE, priority := 5, is_active := true,
    audioSource := none, rewind_asked := false, parameters := defaultParameters,
    setup_ok := setup_ok, play_ok := play_ok }

/-- Construction of a StreamPlayer by PlayStream.  Modelled from the
spec: streams carry no dedup identifier and no stated priority. -/
def StreamPlayer.make (pid : Nat) (setup_ok play_ok : Bool) : AudioPlayer :=
  { pid := pid, kind := PlayerKind.stream, identifier := NONE,
    source_identifier := NONE, priority := 0, is_active := true,
    audioSource := none, rewind_asked := false, parameters := defaultParameters,
    setup_ok := setup_ok, play_ok := play_ok }

/-- Construction of a CallBackableStreamPlayer by the callback overload
of PlayStream.  Modelled from the spec like StreamPlayer. -/
def CallBackableStreamPlayer.make (pid : Nat) (setup_ok play_ok : Bool) : AudioPlayer :=
  { pid := pid, kind := PlayerKind.callbackStream, identifier := NONE,
    source_identifier := NONE, priority := 0, is_active := true,
    audioSource := none, rewind_asked := false, parameters := defaultParameters,
    setup_ok := setup_ok, play_ok := play_ok }

/-- `OpenALManager::PlaySound(header, data, parameters)`.  The sound
header and data are opaque to the manager; of the embedding's arguments,
`att` is the attenuation estimate, `pid` the identity of the player that
would be constructed and `setup_ok` / `play_ok` its modelled collaborator
outcomes.  Returns the handle and the new state. -/
def PlaySound (att : SoundParameters → Rat) (pid : Nat) (setup_ok play_ok : Bool)
    (parameters : SoundParameters) (st : OpenALManager) :
    Option AudioPlayer × OpenALManager :=
  if !st.consuming_audio_enable || !SimulateSound att parameters then (none, st)
  else if !parameters.flags.does_not_self_abort then
    match GetSoundPlayer st parameters.identifier parameters.source_identifier
        parameters.flags.cannot_be_restarted with
    | some existing =>
      if !parameters.flags.cannot_be_restarted then
        let players1 :=
          replaceFirst
            (soundMatch parameters.identifier parameters.source_identifier
              parameters.flags.cannot_be_restarted)
            (AskRewindUpdate parameters) st.audio_players
        (some (AskRewindUpdate parameters existing), { st with audio_players := players1 })
      else (some existing, st)
    | none =>
      let p := SoundPlayer.make att pid setup_ok play_ok parameters
      (some p, QueueAudio p st)
  else
    let p := SoundPlayer.make att pid setup_ok play_ok parameters
    (some p, QueueAudio p st)

/-- `OpenALManager::PlayMusic(decoder)`: refuse when not consuming,
otherwise construct a MusicPlayer and queue it. -/
def PlayMusic (pid : Nat) (setup_ok play_ok : Bool) (st : OpenALManager) :
    Option AudioPlayer × OpenALManager :=
  if !st.consuming_audio_enable then (none, st)
  else
    let p := MusicPlayer.make pid setup_ok play_ok
    (some p, QueueAudio p st)

/-- `OpenALManager::PlayStream(data, length, rate, stereo, sixteen_bit)`:
refuse when not consuming, otherwise construct a StreamPlayer and queue
it. -/
def PlayStream (pid : Nat) (setup_ok play_ok : Bool) (st : OpenALManager) :
    Option AudioPlayer × OpenALManager :=
  if !st.consuming_audio_enable then (none, st)
  else
    let p := StreamPlayer.make pid setup_ok play_ok
    (some p, QueueAudio p st)

/-- The callback overload of `OpenALManager::PlayStream`: refuse when
not consuming, otherwise construct a CallBackableStreamPlayer and queue
it. -/
def PlayStreamCallback (pid : Nat) (setup_ok play_ok : Bool) (st : OpenALManager) :
    Option AudioPlayer × OpenALManager :=
  if !st.consuming_audio_enable then (none, st)
  else
    let p := CallBackableStreamPlayer.make pid setup_ok play_ok
    (some p, QueueAudio p st)

/-- `OpenALManager::StopSound(sound_identifier, source_identifier)`:
look the player up (the header defaults `sound_identifier_only` to
false) and, when found, call `Stop()` on it through the shared pointer. -/
def StopSound (st : OpenALManager) (sound_identifier source_identifier : Int) :
    OpenALManager :=
  match GetSoundPlayer st sound_identifier source_identifier false with
  | some _ =>
    let players1 :=
      replaceFirst (soundMatch sound_identifier source_identifier false)
        AudioPlayer.Stop st.audio_players
    { st with audio_players := players1 }
  | none => st

/-- `OpenALManager::StopAllPlayers`: for each queued player, reclaim its
source via RetrieveSource only when `IsActive()` reports true, then
clear the deque. -/
def StopAllPlayers (st : OpenALManager) : OpenALManager :=
  let pool1 := st.audio_players.foldl
    (fun pool p => if p.is_active then pool ++ p.audioSource.toList else pool)
    st.sources_pool
  { st with audio_players := [], sources_pool := pool1 }

/-- `OpenALManager::Start`: enable consumption (and spawn the consumer
thread, whose liveness the embedding does not model). -/
def Start (st : OpenALManager) : OpenALManager :=
  { st with consuming_audio_enable := true }

/-- `OpenALManager::Stop`: disable consumption and join the consumer
thread (a no-op when already stopped), then StopAllPlayers. -/
def Stop (st : OpenALManager) : OpenALManager :=
  StopAllPlayers { st with consuming_audio_enable := false }

/-- `OpenALManager::GenerateSources`: read the device's mono and stereo
source counts, build the id vector of size `nbSources = monoSources +
stereoSources`, push one pool entry per generated source and return
`!sources_id.empty()`.  A negative `nbSources` makes
`std::vector<ALuint> sources_id(nbSources)` throw `length_error` (the
C++ `int` converts to an enormous `size_t`), so the function never
returns: that fatal outcome is `none`.  The per-source `alGetError`
early-false returns are device failures outside this embedding; the
generated ids are the nonzero names `1..nbSources`. -/
def GenerateSources (monoSources stereoSources : Int) (st : OpenALManager) :
    Option (Bool × OpenALManager) :=
  let nbSources := monoSources + stereoSources
  if nbSources < 0 then none
  else
    let ids := (List.range nbSources.toNat).map (fun i => i + 1)
    some (!ids.isEmpty,
      { st with sources_pool := st.sources_pool ++ ids.map (fun i => { source := i }) })

/-- `OpenALManager::Init`'s result: `instance->OpenPlayingDevice() &&
instance->GenerateSources()`, with the device-opening outcome passed in
as a boolean (device and extension glue is out of scope).  Short-circuit:
when the device fails to open, GenerateSources is not called. -/
def Init (openPlayingDeviceOk : Bool) (monoSources stereoSources : Int)
    (st : OpenALManager) : Option (Bool × OpenALManager) :=
  if openPlayingDeviceOk then GenerateSources monoSources stereoSources st
  else some (false, st)

/-- The conservation quantity of spec section 8: free sources plus
sources currently assigned to players in the queue. -/
def totalSources (st : OpenALManager) : Nat :=
  st.sources_pool.length +
    (st.audio_players.filter (fun p => p.audioSource.isSome)).length

end OpenALManager

open OpenALManager

/-! ## Helper lemmas shared by the claim theorems -/

/-- Number of sources held by one player (0 or 1). -/
def heldCount (p : AudioPlayer) : Nat := p.audioSource.toList.length

theorem heldCount_eq (p : AudioPlayer) :
    heldCount p = (if p.audioSource.isSome then 1 else 0) := by
  cases h : p.audioSource <;> simp [heldCount, h]

theorem filter_isSome_cons (p : AudioPlayer) (l : List AudioPlayer) :
    ((p :: l).filter (fun q => q.audioSource.isSome)).length
      = heldCount p + (l.filter (fun q => q.audioSource.isSome)).length := by
  cases h : p.audioSource <;> simp [List.filter_cons, h, heldCount]
  omega

theorem filter_isSome_concat (l : List AudioPlayer) (p : AudioPlayer) :
    ((l ++ [p]).filter (fun q => q.audioSource.isSome)).length
      = (l.filter (fun q => q.audioSource.isSome)).length + heldCount p := by
  cases h : p.audioSource <;>
    simp [List.filter_append, List.filter_cons, h, heldCount]

theorem replaceFirst_length (q : AudioPlayer → Bool) (f : AudioPlayer → AudioPlayer) :
    ∀ l : List AudioPlayer, (replaceFirst q f l).length = l.length := by
  intro l
  induction l with
  | nil => rfl
  | cons x xs ih =>
    by_cases hx : q x = true <;> simp [replaceFirst, hx, ih]

theorem retrieveSource_pool (p : AudioPlayer) (st : OpenALManager) :
    (RetrieveSource p st).2.sources_pool.length = st.sources_pool.length + heldCount p
    ∧ (RetrieveSource p st).2.audio_players = st.audio_players
    ∧ (RetrieveSource p st).1.audioSource = none := by
  cases h : p.audioSource <;> simp [RetrieveSource, AudioPlayer.Stop, h, heldCount]

theorem consumeChain_conserve (p : AudioPlayer) (st : OpenALManager) :
    (consumeChain p st).2.2.sources_pool.length + heldCount (consumeChain p st).2.1
      = st.sources_pool.length + heldCount p
    ∧ (consumeChain p st).2.2.audio_players = st.audio_players := by
  by_cases ha : p.is_active = true
  · cases hs : p.audioSource with
    | some s => simp [consumeChain, AssignSource, ha, hs, heldCount]
    | none =>
      cases hp : st.sources_pool with
      | nil => simp [consumeChain, AssignSource, PickAvailableSource, ha, hs, hp, heldCount]
      | cons s rest =>
        simp [consumeChain, AssignSource, PickAvailableSource, ha, hs, hp, heldCount]
  · simp [consumeChain, ha]

theorem consume_totalSources (st : OpenALManager) :
    totalSources (ConsumeAudioQueue st) = totalSources st := by
  cases hq : st.audio_players with
  | nil => simp [ConsumeAudioQueue, hq]
  | cons p rest =>
    obtain ⟨hcons, hpl⟩ := consumeChain_conserve p st
    unfold ConsumeAudioQueue
    rw [hq]
    dsimp only
    by_cases hc : (consumeChain p st).1 = true
    · rw [if_pos hc]
      simp only [totalSources, hq, filter_isSome_cons, filter_isSome_concat]
      omega
    · rw [if_neg hc]
      obtain ⟨hr1, _, _⟩ := retrieveSource_pool (consumeChain p st).2.1 (consumeChain p st).2.2
      simp only [totalSources, hq, filter_isSome_cons, hr1]
      omega

theorem consume_queue_shape (st : OpenALManager) (p : AudioPlayer)
    (rest : List AudioPlayer) (hq : st.audio_players = p :: rest) :
    ∃ e, (ConsumeAudioQueue st).audio_players = rest ++ e := by
  unfold ConsumeAudioQueue
  rw [hq]
  dsimp only
  by_cases hc : (consumeChain p st).1 = true
  · exact ⟨[(consumeChain p st).2.1], by rw [if_pos hc]⟩
  · exact ⟨[], by rw [if_neg hc]; simp⟩

theorem servicedTrace_take (k : Nat) :
    ∀ st : OpenALManager, k ≤ st.audio_players.length →
      servicedTrace k st = st.audio_players.take k := by
  induction k with
  | zero => intro st _; simp [servicedTrace]
  | succ k ih =>
    intro st h
    cases hq : st.audio_players with
    | nil =>
      exfalso
      rw [hq] at h
      simp at h
    | cons p rest =>
      have hlen : k ≤ rest.length := by
        have hl : st.audio_players.length = rest.length + 1 := by rw [hq]; rfl
        omega
      obtain ⟨e, he⟩ := consume_queue_shape st p rest hq
      have hrec : servicedTrace k (ConsumeAudioQueue st) = rest.take k := by
        have hle : k ≤ (ConsumeAudioQueue st).audio_players.length := by
          rw [he]
          simp
          omega
        rw [ih (ConsumeAudioQueue st) hle, he, List.take_append_of_le_length hlen]
      have hstep : servicedTrace (k + 1) st
          = st.audio_players.take 1 ++ servicedTrace k (ConsumeAudioQueue st) := rfl
      rw [hstep, hq, hrec]
      simp

/-! ## Claim C1 -/

/-- The requester of the C1 counterexample: a music player (priority 5,
MusicPlayer.h) that does not yet own a source. -/
def requesterC1 : AudioPlayer := MusicPlayer.make 1 true true

/-- The C1 victim: an active sound player of priority 1/2 that owns the
only hardware source. -/
def victimC1 : AudioPlayer :=
  { pid := 0, kind := PlayerKind.sound, identifier := 7, source_identifier := 3,
    priority := (1 : Rat) / 2, is_active := true, audioSource := some { source := 1 },
    rewind_asked := false, parameters := defaultParameters,
    setup_ok := true, play_ok := true }

/-- A manager whose pool is exhausted while the low-priority victim is
active. -/
def stC1 : OpenALManager :=
  { audio_players := [victimC1], sources_pool := [], consuming_audio_enable := true }

/-- Claim C1 counterexample: the pool is empty, the only active player
has priority 1/2, the requester has priority 5, yet acquisition fails
and the victim keeps its source — PickAvailableSource performs no scan
of active players and no preemption, contradicting the claim that the
minimum-priority player's source is forcibly retrieved and handed to the
higher-priority requester. -/
theorem C1_counterexample :
    stC1.sources_pool = []
    ∧ victimC1.priority < requesterC1.priority
    ∧ victimC1.is_active = true
    ∧ AssignSource requesterC1 stC1 = (false, requesterC1, stC1)
    ∧ PickAvailableSource stC1 = (none, stC1) := by
  refine ⟨rfl, by norm_num [victimC1, requesterC1, MusicPlayer.make], rfl, rfl, rfl⟩

/-- Claim C1 (amended): when no free sources remain, the acquire
operation returns None unconditionally and the requester keeps no
source — the manager never preempts an active player, whatever the
priorities are; the requester therefore stays queued. -/
theorem C1_amended (st : OpenALManager) (p : AudioPlayer)
    (hpool : st.sources_pool = []) (hsrc : p.audioSource = none) :
    PickAvailableSource st = (none, st)
    ∧ AssignSource p st = (false, p, st) := by
  constructor
  · simp [PickAvailableSource, hpool]
  · simp [AssignSource, hsrc, PickAvailableSource, hpool]

/-- Witness for C1_amended at the concrete exhausted state. -/
theorem C1_amended_witness :
    PickAvailableSource stC1 = (none, stC1)
    ∧ AssignSource requesterC1 stC1 = (false, requesterC1, stC1) :=
  C1_amended stC1 requesterC1 rfl rfl

/-! ## Claim C2 -/

/-- Claim C2: conservation of sources.  PickAvailableSource removes
exactly the returned source from the pool; RetrieveSource returns the
player's source (when it holds one) to the pool, never discarding
capacity, and leaves the player sourceless; a full ConsumeAudioQueue
step preserves free-plus-assigned; and GenerateSources grows the pool by
exactly the generated count, so right after initialization free sources
equal the total generated and no player is assigned one. -/
theorem C2_conservation :
    (∀ st : OpenALManager,
      (PickAvailableSource st).2.sources_pool.length
          + ((PickAvailableSource st).1).toList.length
        = st.sources_pool.length)
    ∧ (∀ (p : AudioPlayer) (st : OpenALManager),
      (RetrieveSource p st).2.sources_pool.length
          = st.sources_pool.length + heldCount p
        ∧ (RetrieveSource p st).1.audioSource = none)
    ∧ (∀ st : OpenALManager, totalSources (ConsumeAudioQueue st) = totalSources st)
    ∧ (∀ (monoSources stereoSources : Int) (st st1 : OpenALManager) (b : Bool),
      GenerateSources monoSources stereoSources st = some (b, st1) →
        st1.sources_pool.length
            = st.sources_pool.length + (monoSources + stereoSources).toNat
          ∧ st1.audio_players = st.audio_players) := by
  refine ⟨?_, ?_, consume_totalSources, ?_⟩
  · intro st
    cases hp : st.sources_pool <;> simp [PickAvailableSource, hp]
  · intro p st
    obtain ⟨h1, _, h3⟩ := retrieveSource_pool p st
    exact ⟨h1, h3⟩
  · intro monoSources stereoSources st st1 b h
    unfold GenerateSources at h
    by_cases hneg : monoSources + stereoSources < 0
    · simp [hneg] at h
    · simp only [hneg, if_false] at h
      obtain ⟨-, h2⟩ := Prod.mk.injEq .. ▸ Option.some.injEq .. ▸ h
      cases h2
      simp

/-- The state produced by generating two sources from an empty manager. -/
def stGenC2 : OpenALManager :=
  { audio_players := [], sources_pool := [{ source := 1 }, { source := 2 }],
    consuming_audio_enable := false }

/-- The empty initial manager state. -/
def initState : OpenALManager :=
  { audio_players := [], sources_pool := [], consuming_audio_enable := false }

/-- Witness for C2_conservation: its GenerateSources clause evaluated on
the concrete run generating two sources from the empty state. -/
theorem C2_conservation_witness :
    stGenC2.sources_pool.length
        = initState.sources_pool.length + ((1 : Int) + 1).toNat
      ∧ stGenC2.audio_players = initState.audio_players :=
  C2_conservation.2.2.2 1 1 initState stGenC2 true (by decide)

/-! ## Claim C3 -/

/-- Claim C3: the Queued-to-Active transition of the front player
succeeds exactly when `IsActive()` holds, a source can be assigned
(already owned, or the pool is nonempty), `SetUpALSourceIdle()` succeeds
and `Play()` succeeds, evaluated with C++ short-circuiting; on success
the player is requeued at the tail holding a source, on any failure the
player leaves the queue, is not requeued, and its source (if any was
held or just acquired) is back in the pool (free-plus-assigned is
preserved); and an inactive player never triggers an acquisition — the
pool just gains back whatever the player held. -/
theorem C3_activation_chain (st : OpenALManager) (p : AudioPlayer)
    (rest : List AudioPlayer) (hq : st.audio_players = p :: rest) :
    (consumeChain p st).1
        = (p.is_active && (p.audioSource.isSome || !st.sources_pool.isEmpty)
            && p.setup_ok && p.play_ok)
    ∧ ((consumeChain p st).1 = true →
        (ConsumeAudioQueue st).audio_players = rest ++ [(consumeChain p st).2.1]
        ∧ (consumeChain p st).2.1.audioSource.isSome = true)
    ∧ ((consumeChain p st).1 = false →
        (ConsumeAudioQueue st).audio_players = rest
        ∧ totalSources (ConsumeAudioQueue st) = totalSources st)
    ∧ (p.is_active = false →
        (ConsumeAudioQueue st).sources_pool = st.sources_pool ++ p.audioSource.toList) := by
  refine ⟨?_, ?_, ?_, ?_⟩
  · by_cases ha : p.is_active = true
    · cases hs : p.audioSource with
      | some s => simp [consumeChain, AssignSource, ha, hs]
      | none =>
        cases hp : st.sources_pool with
        | nil => simp [consumeChain, AssignSource, PickAvailableSource, ha, hs, hp]
        | cons s pool1 =>
          simp [consumeChain, AssignSource, PickAvailableSource, ha, hs, hp]
    · rw [Bool.not_eq_true] at ha
      simp [consumeChain, ha]
  · intro hm
    constructor
    · unfold ConsumeAudioQueue
      rw [hq]
      dsimp only
      rw [if_pos hm]
    · by_cases ha : p.is_active = true
      · cases hs : p.audioSource with
        | some s => simp [consumeChain, AssignSource, ha, hs]
        | none =>
          cases hp : st.sources_pool with
          | nil => simp [consumeChain, AssignSource, PickAvailableSource, ha, hs, hp] at hm
          | cons s pool1 =>
            simp [consumeChain, AssignSource, PickAvailableSource, ha, hs, hp]
      · rw [Bool.not_eq_true] at ha
        simp [consumeChain, ha] at hm
  · intro hm
    refine ⟨?_, consume_totalSources st⟩
    unfold ConsumeAudioQueue
    rw [hq]
    dsimp only
    rw [if_neg (by simp [hm])]
  · intro ha
    have hc : consumeChain p st = (false, p, st) := by simp [consumeChain, ha]
    unfold ConsumeAudioQueue
    rw [hq]
    dsimp only
    rw [hc]
    cases hs : p.audioSource with
    | some s => simp [RetrieveSource, hs]
    | none => simp [RetrieveSource, hs]

/-- The player of the C3 witness: inactive while still holding source 4,
the retire-and-reclaim path of the chain. -/
def pW3 : AudioPlayer :=
  { pid := 0, kind := PlayerKind.sound, identifier := 5, source_identifier := 1,
    priority := 1, is_active := false, audioSource := some { source := 4 },
    rewind_asked := false, parameters := defaultParameters,
    setup_ok := true, play_ok := true }

/-- The manager state of the C3 witness. -/
def stW3 : OpenALManager :=
  { audio_players := [pW3], sources_pool := [], consuming_audio_enable := true }

/-- Witness for C3_activation_chain at the concrete one-player state. -/
theorem C3_activation_chain_witness :
    (consumeChain pW3 stW3).1
        = (pW3.is_active && (pW3.audioSource.isSome || !stW3.sources_pool.isEmpty)
            && pW3.setup_ok && pW3.play_ok)
    ∧ ((consumeChain pW3 stW3).1 = true →
        (ConsumeAudioQueue stW3).audio_players = [] ++ [(consumeChain pW3 stW3).2.1]
        ∧ (consumeChain pW3 stW3).2.1.audioSource.isSome = true)
    ∧ ((consumeChain pW3 stW3).1 = false →
        (ConsumeAudioQueue stW3).audio_players = []
        ∧ totalSources (ConsumeAudioQueue stW3) = totalSources stW3)
    ∧ (pW3.is_active = false →
        (ConsumeAudioQueue stW3).sources_pool = stW3.sources_pool ++ pW3.audioSource.toList) :=
  C3_activation_chain stW3 pW3 [] rfl

/-! ## Claim C4 -/

/-- The always-continuing player of the C4 counterexample: active,
already owning a source, with priming and playback succeeding. -/
def pC4 : AudioPlayer :=
  { pid := 0, kind := PlayerKind.sound, identifier := 1, source_identifier := 2,
    priority := 1, is_active := true, audioSource := some { source := 1 },
    rewind_asked := false, parameters := defaultParameters,
    setup_ok := true, play_ok := true }

/-- A one-player queue for the C4 counterexample. -/
def stC4 : OpenALManager :=
  { audio_players := [pC4], sources_pool := [], consuming_audio_enable := true }

/-- Claim C4 counterexample: with a single always-continuing player in
the queue, one sleep-delimited pass of the ProcessAudioQueue loop
performs two ConsumeAudioQueue calls — the loop only sleeps once
`iteration > audio_players.size()`, i.e. after size+1 consumes — so the
player is serviced twice within the pass, not exactly once. -/
theorem C4_counterexample :
    stC4.audio_players.length = 1
    ∧ (ProcessAudioQueuePass stC4).2 = [pC4, pC4]
    ∧ ((ProcessAudioQueuePass stC4).2).count pC4 = 2 := by decide

/-- Claim C4 (amended): N consecutive ConsumeAudioQueue calls on a
queue of N players service exactly the originally queued players, each
exactly once and in queue order — requeued players land behind the
not-yet-serviced ones, so none is serviced twice or skipped within those
N calls; the sleep-delimited pass of ProcessAudioQueue however performs
N+1 calls, servicing the head player twice per pass. -/
theorem C4_amended (st : OpenALManager) :
    servicedTrace st.audio_players.length st = st.audio_players := by
  rw [servicedTrace_take st.audio_players.length st (le_refl _)]
  exact List.take_length st.audio_players

/-! ## Claim C5 -/

/-- Claim C5: a PlaySound call that is admitted (consuming enabled,
audible), is not flagged `_sound_does_not_self_abort`, and whose dedup
lookup finds an existing sound player, never creates a second player:
when not flagged `_sound_cannot_be_restarted` the found player is
rewound and its parameters updated in place and its handle returned;
when flagged, the found handle is returned with the state untouched; in
both cases the queue's length is unchanged.  (The volume-margin
condition of the claim does not occur in the code: the rewind happens
whenever the request is restartable, so the claim's conditional holds a
fortiori.) -/
theorem C5_dedup (att : SoundParameters → Rat) (pid : Nat) (setup_ok play_ok : Bool)
    (parameters : SoundParameters) (st : OpenALManager) (q : AudioPlayer)
    (hen : st.consuming_audio_enable = true)
    (hsim : SimulateSound att parameters = true)
    (habort : parameters.flags.does_not_self_abort = false)
    (hfound : GetSoundPlayer st parameters.identifier parameters.source_identifier
        parameters.flags.cannot_be_restarted = some q) :
    (parameters.flags.cannot_be_restarted = true →
      PlaySound att pid setup_ok play_ok parameters st = (some q, st))
    ∧ (parameters.flags.cannot_be_restarted = false →
      PlaySound att pid setup_ok play_ok parameters st
        = (some (AskRewindUpdate parameters q),
            { st with
                audio_players :=
                  replaceFirst
                    (soundMatch parameters.identifier parameters.source_identifier false)
                    (AskRewindUpdate parameters) st.audio_players }))
    ∧ (PlaySound att pid setup_ok play_ok parameters st).2.audio_players.length
        = st.audio_players.length := by
  refine ⟨?_, ?_, ?_⟩
  · intro hc
    rw [hc] at hfound
    simp [PlaySound, hen, hsim, habort, hfound, hc]
  · intro hc
    rw [hc] at hfound
    simp [PlaySound, hen, hsim, habort, hfound, hc]
  · by_cases hc : parameters.flags.cannot_be_restarted = true
    · rw [hc] at hfound
      simp [PlaySound, hen, hsim, habort, hfound, hc]
    · rw [Bool.not_eq_true] at hc
      rw [hc] at hfound
      simp [PlaySound, hen, hsim, habort, hfound, hc, replaceFirst_length]

/-- The already-queued sound player of the C5 witness. -/
def qW5 : AudioPlayer :=
  { pid := 0, kind := PlayerKind.sound, identifier := 2, source_identifier := 3,
    priority := 1, is_active := true, audioSource := none,
    rewind_asked := false, parameters := defaultParameters,
    setup_ok := true, play_ok := true }

/-- The manager state of the C5 witness. -/
def stW5 : OpenALManager :=
  { audio_players := [qW5], sources_pool := [], consuming_audio_enable := true }

/-- A restartable, audible local request with the same dedup key as
`qW5`. -/
def paramsW5 : SoundParameters :=
  { identifier := 2, source_identifier := 3, is_local := true,
    stereo_parameters := { is_panning := false, gain_global := 0 },
    flags := { does_not_self_abort := false, cannot_be_restarted := false } }

/-- A zero attenuation estimate (local sounds bypass it). -/
def att0 : SoundParameters → Rat := fun _ => 0

/-- Witness for C5_dedup at the concrete deduplicating request. -/
theorem C5_dedup_witness :
    (paramsW5.flags.cannot_be_restarted = true →
      PlaySound att0 9 true true paramsW5 stW5 = (some qW5, stW5))
    ∧ (paramsW5.flags.cannot_be_restarted = false →
      PlaySound att0 9 true true paramsW5 stW5
        = (some (AskRewindUpdate paramsW5 qW5),
            { stW5 with
                audio_players :=
                  replaceFirst
                    (soundMatch paramsW5.identifier paramsW5.source_identifier false)
                    (AskRewindUpdate paramsW5) stW5.audio_players }))
    ∧ (PlaySound att0 9 true true paramsW5 stW5).2.audio_players.length
        = stW5.audio_players.length :=
  C5_dedup att0 9 true true paramsW5 stW5 qW5 rfl (by decide) rfl (by decide)

/-! ## Claim C6 -/

/-- Claim C6: a PlaySound request whose simulated volume is at or below
zero is dropped before any player is created — the handle is null and
the state (in particular the queue) is unchanged. -/
theorem C6_silence (att : SoundParameters → Rat) (pid : Nat) (setup_ok play_ok : Bool)
    (parameters : SoundParameters) (st : OpenALManager)
    (hsilent : simulatedVolume att parameters ≤ 0) :
    PlaySound att pid setup_ok play_ok parameters st = (none, st) := by
  have hs : SimulateSound att parameters = false := by
    simp only [SimulateSound, decide_eq_false_iff_not, not_lt]
    exact hsilent
  simp [PlaySound, hs]

/-- A non-local, non-panning request, silent under the zero attenuation
estimate. -/
def paramsW6 : SoundParameters :=
  { identifier := 4, source_identifier := 2, is_local := false,
    stereo_parameters := { is_panning := false, gain_global := 0 },
    flags := { does_not_self_abort := false, cannot_be_restarted := false } }

/-- The manager state of the C6 witness. -/
def stW6 : OpenALManager :=
  { audio_players := [], sources_pool := [], consuming_audio_enable := true }

/-- Witness for C6_silence at the concrete silent request. -/
theorem C6_silence_witness :
    PlaySound att0 3 true true paramsW6 stW6 = (none, stW6) :=
  C6_silence att0 3 true true paramsW6 stW6 (by decide)

/-! ## Claim C7 -/

/-- An already-queued local sound player: identifier 1, NONE source
identifier. -/
def qC7 : AudioPlayer :=
  { pid := 0, kind := PlayerKind.sound, identifier := 1, source_identifier := NONE,
    priority := 1, is_active := true, audioSource := none,
    rewind_asked := false, parameters := defaultParameters,
    setup_ok := true, play_ok := true }

/-- The manager state of the C7 counterexample. -/
def stC7 : OpenALManager :=
  { audio_players := [qC7], sources_pool := [], consuming_audio_enable := true }

/-- A second, audible local request with identifier 1 and NONE source
identifier. -/
def paramsC7 : SoundParameters :=
  { identifier := 1, source_identifier := NONE, is_local := true,
    stereo_parameters := { is_panning := false, gain_global := 0 },
    flags := { does_not_self_abort := false, cannot_be_restarted := false } }

/-- Claim C7 counterexample: a PlaySound call with source_identifier =
NONE IS deduplicated — the dedup lambda guards on `identifier != NONE`,
not on the source identifier (the source's own comment: "NONE is
considered as a valid source index (local sounds)"), so the request
matches the queued player with the same (identifier, NONE) key, the
existing player is rewound, and no new player is created, contradicting
the claim that a new player is always created. -/
theorem C7_counterexample :
    paramsC7.source_identifier = NONE
    ∧ (PlaySound att0 9 true true paramsC7 stC7).1 = some (AskRewindUpdate paramsC7 qC7)
    ∧ (PlaySound att0 9 true true paramsC7 stC7).2.audio_players.length
        = stC7.audio_players.length := by decide

/-- Claim C7 (amended): it is the sound identifier, not the source
identifier, whose NONE value disables deduplication: a request whose
`identifier` is NONE never matches the dedup lookup and (when the
manager is consuming and the request audible) always creates and queues
a new player; a NONE source_identifier is a valid dedup key component. -/
theorem C7_amended (att : SoundParameters → Rat) (pid : Nat) (setup_ok play_ok : Bool)
    (parameters : SoundParameters) (st : OpenALManager)
    (hid : parameters.identifier = NONE)
    (hen : st.consuming_audio_enable = true)
    (hsim : SimulateSound att parameters = true) :
    GetSoundPlayer st parameters.identifier parameters.source_identifier
        parameters.flags.cannot_be_restarted = none
    ∧ PlaySound att pid setup_ok play_ok parameters st
        = (some (SoundPlayer.make att pid setup_ok play_ok parameters),
            QueueAudio (SoundPlayer.make att pid setup_ok play_ok parameters) st) := by
  have hf : ∀ only : Bool,
      st.audio_players.find?
        (soundMatch parameters.identifier parameters.source_identifier only) = none := by
    intro only
    apply List.find?_eq_none.mpr
    intro x hx
    simp [soundMatch, hid]
  have hg : GetSoundPlayer st parameters.identifier parameters.source_identifier
      parameters.flags.cannot_be_restarted = none := by
    simp [GetSoundPlayer, hf]
  refine ⟨hg, ?_⟩
  by_cases habort : parameters.flags.does_not_self_abort = true
  · simp [PlaySound, hen, hsim, habort]
  · rw [Bool.not_eq_true] at habort
    simp [PlaySound, hen, hsim, habort, hg]

/-- A local request carrying the NONE sound identifier. -/
def paramsW7 : SoundParameters :=
  { identifier := NONE, source_identifier := 3, is_local := true,
    stereo_parameters := { is_panning := false, gain_global := 0 },
    flags := { does_not_self_abort := false, cannot_be_restarted := false } }

/-- The manager state of the C7 witness. -/
def stW7 : OpenALManager :=
  { audio_players := [qC7], sources_pool := [], consuming_audio_enable := true }

/-- Witness for C7_amended at the concrete NONE-identifier request. -/
theorem C7_amended_witness :
    GetSoundPlayer stW7 paramsW7.identifier paramsW7.source_identifier
        paramsW7.flags.cannot_be_restarted = none
    ∧ PlaySound att0 2 true true paramsW7 stW7
        = (some (SoundPlayer.make att0 2 true true paramsW7),
            QueueAudio (SoundPlayer.make att0 2 true true paramsW7) stW7) :=
  C7_amended att0 2 true true paramsW7 stW7 rfl rfl (by decide)

/-! ## Claim C8 -/

/-- The audible local request of the C8 failing trace. -/
def paramsC8 : SoundParameters :=
  { identifier := 10, source_identifier := NONE, is_local := true,
    stereo_parameters := { is_panning := false, gain_global := 0 },
    flags := { does_not_self_abort := false, cannot_be_restarted := false } }

/-- C8 trace, step 0: one generated source, consumption started. -/
def stC8a : OpenALManager :=
  { audio_players := [], sources_pool := [{ source := 1 }],
    consuming_audio_enable := true }

/-- C8 trace, step 1: the sound is admitted and queued. -/
def stC8b : OpenALManager := (PlaySound att0 0 true true paramsC8 stC8a).2

/-- C8 trace, step 2: one consume step makes the player Active with the
only source. -/
def stC8c : OpenALManager := ConsumeAudioQueue stC8b

/-- C8 trace, step 3: a producer stops the sound; the stop is advisory,
the player still holds the source. -/
def stC8d : OpenALManager := StopSound stC8c 10 NONE

/-- C8 trace, step 4: the whole manager is stopped. -/
def stC8e : OpenALManager := OpenALManager.Stop stC8d

/-- Claim C8 (code bug), evaluated on the failing trace: one source is
generated; after PlaySound and one ConsumeAudioQueue step the player is
active and holds it; StopSound marks the player inactive while it still
holds the source; Stop then returns with an empty queue but an empty
pool — StopAllPlayers reclaims only from players with `IsActive()`
true, so the stopped player's source never returns and the free count
(0) differs from the total generated (1), contradicting the claim (and
spec section 8's stop-all scenario). -/
theorem C8_stop_leak :
    totalSources stC8a = 1
    ∧ (stC8c.audio_players.map fun p => (p.is_active, p.audioSource))
        = [(true, some { source := 1 })]
    ∧ (stC8d.audio_players.map fun p => (p.is_active, p.audioSource))
        = [(false, some { source := 1 })]
    ∧ stC8e.audio_players = []
    ∧ stC8e.sources_pool = []
    ∧ stC8e.sources_pool.length ≠ totalSources stC8a := by decide

/-! ## Claim C9 -/

/-- The empty initial manager state. -/
def initStateC9 : OpenALManager :=
  { audio_players := [], sources_pool := [], consuming_audio_enable := false }

/-- Claim C9 counterexample: when the platform reports a negative
channel count (monoSources = -1, stereoSources = 0), GenerateSources
does not return false — `std::vector<ALuint> sources_id(nbSources)`
throws `length_error` (the negative int converts to an enormous size_t),
modelled as `none`, and that exception propagates out of Init as well:
neither function returns the boolean false the claim requires. -/
theorem C9_counterexample :
    GenerateSources (-1) 0 initStateC9 = none
    ∧ Init true (-1) 0 initStateC9 = none := by decide

/-- Claim C9 (amended): a zero reported channel count makes
GenerateSources return false and Init report failure with the state
unchanged, so the manager does not become usable; a negative count never
returns at all — the id-vector construction throws (modelled `none`) and
the failure propagates out of Init; and a failed device open makes Init
return false without generating anything. -/
theorem C9_amended (monoSources stereoSources : Int) (st : OpenALManager) :
    (monoSources + stereoSources = 0 →
      GenerateSources monoSources stereoSources st = some (false, st)
      ∧ Init true monoSources stereoSources st = some (false, st))
    ∧ (monoSources + stereoSources < 0 →
      GenerateSources monoSources stereoSources st = none
      ∧ Init true monoSources stereoSources st = none)
    ∧ Init false monoSources stereoSources st = some (false, st) := by
  obtain ⟨pl, pool, en⟩ := st
  refine ⟨fun h => ⟨?_, ?_⟩, fun h => ⟨?_, ?_⟩, ?_⟩
  · simp [GenerateSources, h]
  · simp [Init, GenerateSources, h]
  · simp [GenerateSources, h]
  · simp [Init, GenerateSources, h]
  · simp [Init]

/-- Witness for C9_amended: zero and negative counts evaluated from the
empty state. -/
theorem C9_amended_witness :
    GenerateSources 0 0 initStateC9 = some (false, initStateC9)
    ∧ GenerateSources (-2) 1 initStateC9 = none :=
  ⟨((C9_amended 0 0 initStateC9).1 rfl).1,
   ((C9_amended (-2) 1 initStateC9).2.1 (by decide)).1⟩

/-! ## Claim C10 -/

/-- Claim C10: while the manager is not consuming audio, every admission
operation — PlaySound, PlayMusic, PlayStream and its callback overload —
returns a null handle and leaves the state (in particular the playback
queue) unchanged: no player is constructed. -/
theorem C10_disabled (att : SoundParameters → Rat) (pid : Nat) (setup_ok play_ok : Bool)
    (parameters : SoundParameters) (st : OpenALManager)
    (hoff : st.consuming_audio_enable = false) :
    PlaySound att pid setup_ok play_ok parameters st = (none, st)
    ∧ PlayMusic pid setup_ok play_ok st = (none, st)
    ∧ PlayStream pid setup_ok play_ok st = (none, st)
    ∧ PlayStreamCallback pid setup_ok play_ok st = (none, st) := by
  refine ⟨?_, ?_, ?_, ?_⟩ <;>
    simp [PlaySound, PlayMusic, PlayStream, PlayStreamCallback, hoff]

/-- Witness for C10_disabled at the stopped empty manager. -/
theorem C10_disabled_witness :
    PlaySound att0 1 true true paramsW6 initStateC9 = (none, initStateC9)
    ∧ PlayMusic 1 true true initStateC9 = (none, initStateC9)
    ∧ PlayStream 1 true true initStateC9 = (none, initStateC9)
    ∧ PlayStreamCallback 1 true true initStateC9 = (none, initStateC9) :=
  C10_disabled att0 1 true true paramsW6 initStateC9 rfl

end AlephOneSound
